import Mathlib

/-
Shallow embedding of the pgn-to-gif pipeline (src/pgn_to_gif/utils.py,
src/pgn_to_gif/cli.py, src/main.py).

The pipeline wraps three external libraries (python-chess, cairosvg, imageio).
Those collaborators are modelled by their observable interface:

* python-chess boards are modelled by their move stack from the standard
  starting position.  python-chess derives piece placement deterministically
  from that stack and no code in this repository ever inspects the placement,
  so the stack is a faithful abstraction of a `chess.Board`.
* `chess.svg.board` is a pure function of its arguments; its output is
  modelled as a record of exactly those arguments (`Svg`).
* `cairosvg.svg2png` is a pure injective conversion; its output is modelled
  as a wrapper around the input (`Png`).
* The imageio writer session is modelled by an event trace
  (temp-file creation, sink open, one event per appended frame, sink close)
  so that claims about *when* I/O happens relative to frame consumption are
  statable.

Python laziness: the generator chain in `game_to_gif` (boards -> svgs -> pngs)
defers both work and exceptions until the encoder pulls a frame.  This is
modelled by streams of type `List (Except Err _)`: an `Except.error` element
is an exception that materialises only when `pngs_to_gif` consumes that
element, and the consumption events are emitted by `pngs_to_gif` alone.
-/

set_option autoImplicit false

deriving instance DecidableEq for Except

namespace PgnToGif

/-- A chess move (python-chess `chess.Move`): from-square, to-square and an
optional promotion piece type.  Claims never inspect the fields; they only
need decidable equality. -/
structure Move where
  fromSquare : Nat
  toSquare : Nat
  promotion : Option Nat
deriving DecidableEq, Repr

/-- A chess board, modelled by its move stack from the standard starting
position (python-chess `chess.Board` derives the full position from this
stack; nothing in the repository reads the placement directly). -/
structure Board where
  moveStack : List Move
deriving DecidableEq, Repr

/-- python-chess `chess.Board()`: the standard starting position. -/
def Board.initial : Board := ⟨[]⟩

/-- python-chess `board.push(move)`. -/
def Board.push (b : Board) (m : Move) : Board := ⟨b.moveStack ++ [m]⟩

/-- python-chess `chess.pgn.Game` as far as this repository uses it: the
mainline move sequence, plus the `errors` list that `read_game` fills with
exceptions it caught while parsing (modelled by its length). -/
structure ParsedGame where
  moves : List Move
  errors : Nat
deriving DecidableEq, Repr

/-- python-chess `game.mainline_moves()`: the mainline moves in game order. -/
def ParsedGame.mainline_moves (g : ParsedGame) : List Move := g.moves

/-- A python-chess `GameNode` of the mainline: it knows the moves leading to
it from the root, and `board()` replays them. -/
structure GameNode where
  movesFromRoot : List Move
deriving DecidableEq, Repr

/-- python-chess `game_node.board()`: replay the moves from the root on the
starting position. -/
def GameNode.board (n : GameNode) : Board :=
  n.movesFromRoot.foldl Board.push Board.initial

/-- python-chess `game.mainline()`: the node after mainline move `i` carries
moves `0..i` from the root. -/
def ParsedGame.mainline (g : ParsedGame) : List GameNode :=
  (List.range g.moves.length).map (fun i => ⟨g.moves.take (i + 1)⟩)

/-- python-chess `chess.Color` (`chess.WHITE` / `chess.BLACK`). -/
inductive Color
  | white
  | black
deriving DecidableEq, Repr

/-- The Python exception kinds this pipeline can raise.  Spec section 7 maps
`assertionError` (failed `assert`) and `valueError` to its InvalidArgument
kind, the `OSError` on an unwritable destination to IOError, and the
zero-frame rejection of the encoder is a `RuntimeError`.  `attributeError`
is what `None.mainline_moves()` raises when `read_game` returned no game. -/
inductive Err
  | assertionError
  | valueError
  | ioError
  | runtimeError
  | attributeError
deriving DecidableEq, Repr

/-- Spec section 7 taxonomy: which exception kinds count as InvalidArgument. -/
def Err.invalidArgumentKind : Err → Bool
  | .assertionError => true
  | .valueError => true
  | _ => false

/-- Output of `chess.svg.board`, a pure function of its arguments: modelled
as the record of the arguments `board_to_svg` passes to it. -/
structure Svg where
  board : Board
  orientation : Color
  lastmove : Option Move
  size : Int
  coordinates : Bool
  style : Option String
deriving DecidableEq, Repr

/-- Output of `cairosvg.svg2png`, a pure conversion of one svg. -/
structure Png where
  source : Svg
deriving DecidableEq, Repr

/-- A Python `tempfile.TemporaryFile`: its byte contents (abstracted as the
encoded frame list), the file position, and whether it has been closed. -/
structure TempFile where
  contents : List Png
  pos : Nat
  closed : Bool
deriving DecidableEq, Repr

/-- Observable side effects of the pipeline, in order of occurrence:
creation of the temporary output artifact, opening of the imageio writer
sink on it, consumption/append of one frame, closing of the writer sink,
`path.parent.mkdir`, the write of the gif bytes to the destination path,
and `temp_file.close()`. -/
inductive Event
  | tempFileCreated
  | sinkOpened
  | frameAppended
  | sinkClosed
  | parentDirsCreated
  | outputWritten (path : String) (data : List Png)
  | tempFileClosed
deriving DecidableEq, Repr

/-- PGN input text, classified the way the external parser sees it.
python-chess documents `chess.pgn.read_game` as a forgiving parser: it skips
tokens it cannot parse, logs and collects exceptions in `Game.errors`, and
returns `None` only when no game is found in the stream (e.g. empty input).
`wellFormed ms` is text that parses cleanly to mainline `ms`; `malformed ms k`
is text on which the parser salvaged mainline `ms` while collecting `k + 1`
errors. -/
inductive PgnText
  | empty
  | wellFormed (moves : List Move)
  | malformed (salvagedMoves : List Move) (errorCount : Nat)
deriving DecidableEq, Repr

/-- python-chess `chess.pgn.read_game` on the classified input: forgiving,
never raises; returns `none` only for input containing no game. -/
def read_game : PgnText → Option ParsedGame
  | .empty => none
  | .wellFormed ms => some ⟨ms, 0⟩
  | .malformed ms k => some ⟨ms, k + 1⟩

/-- utils.py `pgn_to_game`: delegates to `chess.pgn.read_game` and returns
its result unchanged (no check of `None` or of `game.errors`). -/
def pgn_to_game (pgn : PgnText) : Option ParsedGame := read_game pgn

/-- utils.py `game_to_boards_and_last_moves`.  The generator first yields the
initial position (when requested) and then one `(node.board(), move)` pair
per element of `zip(game.mainline_moves(), game.mainline())`.  The Python
annotation says the argument is a game, but `pgn_to_gif` passes
`read_game`'s result unchecked, so at runtime it may be `None`: then the
initial yield (which does not touch `game`) still succeeds and the `for`
loop raises `AttributeError` on the next advance — modelled as a trailing
`Except.error` stream element. -/
def game_to_boards_and_last_moves (game : Option ParsedGame)
    (add_initial_position : Bool) :
    List (Except Err (Board × Option Move)) :=
  (if add_initial_position then [Except.ok (Board.initial, (none : Option Move))] else []) ++
    (match game with
     | some g =>
         (g.mainline_moves.zip g.mainline).map (fun p => Except.ok (p.2.board, some p.1))
     | none => [Except.error Err.attributeError])

/-- utils.py `board_to_svg`: asserts that the size is a positive integer
before delegating to `chess.svg.board`.  A failed `assert` is a Python
`AssertionError`. -/
def board_to_svg (board : Board) (orientation : Color) (last_move : Option Move)
    (size : Int) (coordinates : Bool) (style : Option String) : Except Err Svg :=
  if 0 < size then
    Except.ok ⟨board, orientation, last_move, size, coordinates, style⟩
  else
    Except.error Err.assertionError

/-- utils.py `svg_to_png`: `cairosvg.svg2png`, a pure conversion. -/
def svg_to_png (board_svg : Svg) : Png := ⟨board_svg⟩

/-- The svg generator expression inside utils.py `game_to_gif`: for each
pair produced by the board-sequence stream, call `board_to_svg` with
`last_move if highlight_last_move else None`.  An errored stream element
propagates unchanged (the Python generator re-raises on pull). -/
def svgs_stream (stream : List (Except Err (Board × Option Move)))
    (highlight_last_move : Bool) (orientation : Color) (size : Int)
    (coordinates : Bool) (style : Option String) : List (Except Err Svg) :=
  stream.map (fun r =>
    r.bind (fun bm =>
      board_to_svg bm.1 orientation (if highlight_last_move then bm.2 else none)
        size coordinates style))

/-- The png generator expression inside utils.py `game_to_gif`:
`svg_to_png(svg) for svg in svgs`. -/
def pngs_stream (svgs : List (Except Err Svg)) : List (Except Err Png) :=
  svgs.map (fun r => r.map svg_to_png)

/-- The frame loop inside utils.py `pngs_to_gif`:
`[writer.append_data(imageio.imread(png)) for png in pngs]`.  Pulling an
element forces the lazy chain: an errored element aborts the loop and
re-raises; a successful pull appends the frame and emits one
`frameAppended` event. -/
def append_frames : List (Except Err Png) → Except Err (List Png) × List Event
  | [] => (Except.ok [], [])
  | p :: ps =>
      match p with
      | .error e => (Except.error e, [])
      | .ok png =>
          let r := append_frames ps
          (r.1.map (fun rest => png :: rest), Event.frameAppended :: r.2)

/-- Modelled from the spec: the close of the imageio writer session, whose
source is not part of this repository.  Spec sections 4.2 and 4.5 state the
Animation Encoder must reject a zero-frame encode (a `RuntimeError`); on
success the gif temp file holds the encoded frames and is left open —
imageio does not close caller-provided file objects and `pngs_to_gif`
returns the temp file without closing it. -/
def writer_close (frames : List Png) : Except Err TempFile :=
  if frames.isEmpty then Except.error Err.runtimeError
  else Except.ok ⟨frames, frames.length, false⟩

/-- utils.py `pngs_to_gif`: first the eager precondition
`duration is None and fps is None -> ValueError`, raised before the
temporary file is created, before the writer sink is opened and before any
frame is pulled; then `TemporaryFile()`, the scoped writer session, the
frame loop, and the close of the `with` block (which runs on both the
success and the exception path). -/
def pngs_to_gif (pngs : List (Except Err Png)) (loop : Int)
    (duration : Option Rat) (fps : Option Rat) (palettesize : Nat)
    (subrectangles : Bool) : Except Err TempFile × List Event :=
  if duration = none ∧ fps = none then
    (Except.error Err.valueError, [])
  else
    let r := append_frames pngs
    match r.1 with
    | .error e =>
        (Except.error e,
          [Event.tempFileCreated, Event.sinkOpened] ++ r.2 ++ [Event.sinkClosed])
    | .ok frames =>
        (writer_close frames,
          [Event.tempFileCreated, Event.sinkOpened] ++ r.2 ++ [Event.sinkClosed])

/-- utils.py `save_gif_temp_file`: `path.parent.mkdir(parents=True,
exist_ok=True)`, `temp_file.seek(0)`, `open(path, "wb+")` (which fails with
`OSError` when the destination is unwritable — modelled by the
`dest_writable` environment flag), write of `temp_file.read()` (everything
from the current position), and finally `temp_file.close()`.  There is no
`try`/`finally`: when `open` raises, the close is never executed. -/
def save_gif_temp_file (temp_file : TempFile) (path : String)
    (dest_writable : Bool) : Except Err Unit × TempFile × List Event :=
  let tf : TempFile := { temp_file with pos := 0 }
  if dest_writable then
    let data := tf.contents.drop tf.pos
    (Except.ok (),
      { tf with pos := tf.contents.length, closed := true },
      [Event.parentDirsCreated, Event.outputWritten path data, Event.tempFileClosed])
  else
    (Except.error Err.ioError, tf, [Event.parentDirsCreated])

/-- utils.py `game_to_gif`: build the lazy board/svg/png generator chain,
hand it to `pngs_to_gif`, then either save the resulting temp file to
`gif_path` (returning `None`) or return the still-open temp file when no
path was given.  Errors propagate uncaught. -/
def game_to_gif (game : Option ParsedGame) (gif_path : Option String)
    (add_initial_position : Bool) (highlight_last_move : Bool)
    (orientation : Color) (size : Int) (coordinates : Bool)
    (style : Option String) (loop : Int) (duration : Option Rat)
    (fps : Option Rat) (palettesize : Nat) (subrectangles : Bool)
    (dest_writable : Bool) : Except Err (Option TempFile) × List Event :=
  let boards_and_last_moves := game_to_boards_and_last_moves game add_initial_position
  let svgs := svgs_stream boards_and_last_moves highlight_last_move orientation
    size coordinates style
  let pngs := pngs_stream svgs
  let r := pngs_to_gif pngs loop duration fps palettesize subrectangles
  match r.1 with
  | .error e => (Except.error e, r.2)
  | .ok gif_temp_file =>
      match gif_path with
      | some p =>
          let s := save_gif_temp_file gif_temp_file p dest_writable
          match s.1 with
          | .ok _ => (Except.ok none, r.2 ++ s.2.2)
          | .error e => (Except.error e, r.2 ++ s.2.2)
      | none => (Except.ok (some gif_temp_file), r.2)

/-- utils.py `pgn_to_gif`: parse, then delegate to `game_to_gif`, passing
`pgn_to_game`'s result through without any check. -/
def pgn_to_gif (pgn : PgnText) (gif_path : Option String)
    (add_initial_position : Bool) (highlight_last_move : Bool)
    (orientation : Color) (size : Int) (coordinates : Bool)
    (style : Option String) (loop : Int) (duration : Option Rat)
    (fps : Option Rat) (palettesize : Nat) (subrectangles : Bool)
    (dest_writable : Bool) : Except Err (Option TempFile) × List Event :=
  game_to_gif (pgn_to_game pgn) gif_path add_initial_position highlight_last_move
    orientation size coordinates style loop duration fps palettesize
    subrectangles dest_writable

/-- cli.py `parse_bool`: allow-list boolean parsing over the lowercased
token. -/
def parse_bool (bool_str : String) : Except Err Bool :=
  let true_values : List String := ["1", "t", "true"]
  let false_values : List String := ["0", "f", "false"]
  if bool_str.toLower ∈ true_values then Except.ok true
  else if bool_str.toLower ∈ false_values then Except.ok false
  else Except.error Err.valueError

/-- Python's builtin `bool` applied to a `str`, which is what
`argparse` `type=bool` in src/main.py uses for boolean flags: the empty
string is falsy, every non-empty string is truthy. -/
def bool_of_str (s : String) : Bool :=
  if s = "" then false else true

/-- The spec's independent re-derivation of a frame's position: apply a move
list to the starting position (spec section 8, "re-deriving the board
independently from the move list must match"). -/
def board_after_moves (ms : List Move) : Board :=
  ms.foldl Board.push Board.initial

/-- Count of frames appended to the writer in an event trace. -/
def frames_appended : List Event → Nat
  | [] => 0
  | e :: rest => (if e = Event.frameAppended then 1 else 0) + frames_appended rest

/-- The pure board/last-move pairs of the stream (proof helper: the stream
produced for an actual game is this list with every element wrapped in
`Except.ok`). -/
def boards_list (g : ParsedGame) (add_initial_position : Bool) :
    List (Board × Option Move) :=
  (if add_initial_position then [(Board.initial, (none : Option Move))] else []) ++
    (g.mainline_moves.zip g.mainline).map (fun p => (p.2.board, some p.1))

/-- Concrete fixtures for witnesses and counterexamples: the two plies of
"1. e4 e5" and derived objects. -/
def e2e4 : Move := ⟨12, 28, none⟩

def e7e5 : Move := ⟨52, 36, none⟩

def sampleGame : ParsedGame := ⟨[e2e4, e7e5], 0⟩

def emptyGame : ParsedGame := ⟨[], 0⟩

def initialSvg : Svg := ⟨Board.initial, Color.white, none, 400, true, none⟩

def initialPng : Png := svg_to_png initialSvg

def sampleTempFile : TempFile := ⟨[initialPng], 1, false⟩

/-! Helper lemmas shared by the claim theorems. -/

theorem zip_getElem? {α β : Type} : ∀ (l1 : List α) (l2 : List β) (i : Nat)
    (h1 : i < l1.length) (h2 : i < l2.length),
    (l1.zip l2)[i]? = some (l1[i], l2[i])
  | _ :: _, _ :: _, 0, _, _ => by simp
  | a :: t1, b :: t2, i + 1, h1, h2 => by
      have ih := zip_getElem? t1 t2 i (by simpa using h1) (by simpa using h2)
      simpa [List.zip_cons_cons] using ih

theorem game_stream_eq_map_ok (g : ParsedGame) (aip : Bool) :
    game_to_boards_and_last_moves (some g) aip = (boards_list g aip).map Except.ok := by
  cases aip <;> simp [game_to_boards_and_last_moves, boards_list, List.map_map, Function.comp]

theorem boards_list_length (g : ParsedGame) (aip : Bool) :
    (boards_list g aip).length = (if aip then 1 else 0) + g.moves.length := by
  cases aip <;>
    simp [boards_list, ParsedGame.mainline_moves, ParsedGame.mainline, List.length_zip,
      Nat.add_comm]

theorem pngs_stream_map_ok (l : List (Board × Option Move)) (hlm : Bool)
    (o : Color) (size : Int) (c : Bool) (st : Option String) (hsize : 0 < size) :
    pngs_stream (svgs_stream (l.map Except.ok) hlm o size c st) =
      (l.map (fun bm =>
        svg_to_png ⟨bm.1, o, if hlm then bm.2 else none, size, c, st⟩)).map Except.ok := by
  simp [pngs_stream, svgs_stream, board_to_svg, hsize, List.map_map, Function.comp,
    Except.bind, Except.map]

theorem append_frames_map_ok (l : List Png) :
    append_frames (l.map Except.ok) =
      (Except.ok l, List.replicate l.length Event.frameAppended) := by
  induction l with
  | nil => rfl
  | cons p ps ih => simp [append_frames, ih, List.replicate_succ, Except.map]

theorem frames_appended_append (l1 l2 : List Event) :
    frames_appended (l1 ++ l2) = frames_appended l1 + frames_appended l2 := by
  induction l1 with
  | nil => simp [frames_appended]
  | cons e rest ih => simp [frames_appended, ih, Nat.add_assoc]

theorem frames_appended_replicate (n : Nat) :
    frames_appended (List.replicate n Event.frameAppended) = n := by
  induction n with
  | zero => rfl
  | succ k ih => simp [List.replicate_succ, frames_appended, ih, Nat.add_comm]

theorem pngs_to_gif_map_ok (l : List Png) (loop : Int) (d fp : Option Rat)
    (ps : Nat) (sr : Bool) (htime : ¬(d = none ∧ fp = none)) :
    pngs_to_gif (l.map Except.ok) loop d fp ps sr =
      (writer_close l,
        [Event.tempFileCreated, Event.sinkOpened] ++
          List.replicate l.length Event.frameAppended ++ [Event.sinkClosed]) := by
  simp [pngs_to_gif, htime, append_frames_map_ok]

theorem pngs_to_gif_error_head (e : Err) (rest : List (Except Err Png)) (loop : Int)
    (d fp : Option Rat) (ps : Nat) (sr : Bool) (htime : ¬(d = none ∧ fp = none)) :
    pngs_to_gif (Except.error e :: rest) loop d fp ps sr =
      (Except.error e,
        [Event.tempFileCreated, Event.sinkOpened, Event.sinkClosed]) := by
  simp [pngs_to_gif, htime, append_frames]

theorem save_gif_eq (tf : TempFile) (p : String) :
    save_gif_temp_file tf p true =
      (Except.ok (), ⟨tf.contents, tf.contents.length, true⟩,
        [Event.parentDirsCreated, Event.outputWritten p tf.contents,
          Event.tempFileClosed]) ∧
    save_gif_temp_file tf p false =
      (Except.error Err.ioError, ⟨tf.contents, 0, tf.closed⟩,
        [Event.parentDirsCreated]) := by
  constructor <;> simp [save_gif_temp_file]

theorem frames_appended_save (tf : TempFile) (p : String) (dw : Bool) :
    frames_appended (save_gif_temp_file tf p dw).2.2 = 0 := by
  cases dw <;> simp [save_gif_temp_file, frames_appended]

theorem game_to_gif_trace_frames (game : Option ParsedGame) (gp : Option String)
    (aip hlm : Bool) (o : Color) (size : Int) (c : Bool) (st : Option String)
    (loop : Int) (d fp : Option Rat) (ps : Nat) (sr dw : Bool) :
    frames_appended (game_to_gif game gp aip hlm o size c st loop d fp ps sr dw).2 =
      frames_appended (pngs_to_gif (pngs_stream (svgs_stream
        (game_to_boards_and_last_moves game aip) hlm o size c st))
          loop d fp ps sr).2 := by
  simp only [game_to_gif]
  split
  · rfl
  · split
    · split <;> simp [frames_appended_append, frames_appended_save]
    · rfl

/-! Claim theorems. -/

/-- C1: for every parsed game with N mainline moves, the board/last-move
sequence has length N + 1 when `add_initial_position` is true and N
otherwise, and the number of frames appended to the gif writer in
`game_to_gif` equals that same count. -/
theorem frame_count (g : ParsedGame) (gif_path : Option String) (aip hlm : Bool)
    (o : Color) (size : Int) (c : Bool) (st : Option String) (loop : Int)
    (d fp : Option Rat) (ps : Nat) (sr dw : Bool)
    (hsize : 0 < size) (htime : ¬(d = none ∧ fp = none)) :
    (game_to_boards_and_last_moves (some g) aip).length =
        g.moves.length + (if aip then 1 else 0) ∧
    frames_appended
        (game_to_gif (some g) gif_path aip hlm o size c st loop d fp ps sr dw).2 =
      g.moves.length + (if aip then 1 else 0) := by
  have hlen : (boards_list g aip).length = (if aip then 1 else 0) + g.moves.length :=
    boards_list_length g aip
  constructor
  · rw [game_stream_eq_map_ok, List.length_map, hlen, Nat.add_comm]
  · rw [game_to_gif_trace_frames, game_stream_eq_map_ok,
      pngs_stream_map_ok _ _ _ _ _ _ hsize, pngs_to_gif_map_ok _ _ _ _ _ _ htime]
    simp [frames_appended_append, frames_appended_replicate, frames_appended,
      hlen, Nat.add_comm]

/-- Witness for C1 on the two-ply game "1. e4 e5" with the initial position
included: three frames. -/
theorem frame_count_witness :
    (0 : Int) < 400 ∧ ¬((none : Option Rat) = none ∧ (some 1 : Option Rat) = none) ∧
    ((game_to_boards_and_last_moves (some sampleGame) true).length =
        sampleGame.moves.length + (if true then 1 else 0) ∧
      frames_appended
          (game_to_gif (some sampleGame) (some "game.gif") true true Color.white
            400 true none 0 none (some 1) 16 true true).2 =
        sampleGame.moves.length + (if true then 1 else 0)) :=
  ⟨by decide, by decide,
    frame_count sampleGame (some "game.gif") true true Color.white 400 true none 0
      none (some 1) 16 true true (by decide) (by decide)⟩

/-- C2: the generator emits, per mainline move in game order, the pair of
the position after that move and that move, the position agreeing with an
independent replay of `moves[0..i]` from the starting position; with
`add_initial_position` the first element is the starting position with no
move. -/
theorem mainline_pairs (g : ParsedGame) (aip : Bool) :
    (aip = true →
      (game_to_boards_and_last_moves (some g) aip).head? =
        some (Except.ok (Board.initial, none))) ∧
    ∀ i, (hi : i < g.moves.length) →
      (game_to_boards_and_last_moves (some g) aip)[(if aip then 1 else 0) + i]? =
        some (Except.ok (board_after_moves (g.moves.take (i + 1)), some g.moves[i])) := by
  have hz : ∀ i, (hi : i < g.moves.length) →
      ((g.mainline_moves.zip g.mainline).map
        (fun p => (Except.ok (p.2.board, some p.1) : Except Err (Board × Option Move))))[i]? =
        some (Except.ok (board_after_moves (g.moves.take (i + 1)), some g.moves[i])) := by
    intro i hi
    have h1 : i < g.mainline_moves.length := hi
    have h2 : i < g.mainline.length := by
      simpa [ParsedGame.mainline] using hi
    rw [List.getElem?_map, zip_getElem? _ _ i h1 h2]
    have hml : g.mainline[i] = ⟨g.moves.take (i + 1)⟩ := by
      simp [ParsedGame.mainline]
    simp [hml, GameNode.board, board_after_moves, ParsedGame.mainline_moves]
  cases aip with
  | false =>
      constructor
      · intro h
        exact absurd h (by simp)
      · intro i hi
        have := hz i hi
        simpa [game_to_boards_and_last_moves] using this
  | true =>
      refine ⟨fun _ => rfl, ?_⟩
      intro i hi
      have := hz i hi
      have hidx : ((if true then 1 else 0) : Nat) + i = i + 1 := by
        simp [Nat.add_comm]
      rw [hidx]
      simpa [game_to_boards_and_last_moves] using this

/-- Witness for C2 on "1. e4 e5": initial frame plus the pair after the
second ply. -/
theorem mainline_pairs_witness :
    (game_to_boards_and_last_moves (some sampleGame) true).head? =
        some (Except.ok (Board.initial, none)) ∧
    (game_to_boards_and_last_moves (some sampleGame) true)[(if true then 1 else 0) + 1]? =
        some (Except.ok (board_after_moves (sampleGame.moves.take 2),
          some sampleGame.moves[1])) :=
  ⟨(mainline_pairs sampleGame true).1 rfl,
    (mainline_pairs sampleGame true).2 1 (by decide)⟩

/-- C3: the svg stage of the pipeline forces the last-move argument of
`board_to_svg` to `none` for every frame when `highlight_last_move` is
false, regardless of what the board-sequence stream produced, and passes
the stream's last move through unchanged when it is true. -/
theorem highlight_last_move_override
    (stream : List (Except Err (Board × Option Move)))
    (o : Color) (size : Int) (c : Bool) (st : Option String) :
    svgs_stream stream false o size c st =
      stream.map (fun r => r.bind (fun bm => board_to_svg bm.1 o none size c st)) ∧
    svgs_stream stream true o size c st =
      stream.map (fun r => r.bind (fun bm => board_to_svg bm.1 o bm.2 size c st)) := by
  constructor <;> simp [svgs_stream]

/-- C4: with both duration and fps unset, `pngs_to_gif` fails with the
`ValueError` (an InvalidArgument-kind error) and its trace is empty — no
temp file is created, no sink is opened, and no frame is consumed. -/
theorem duration_fps_precondition (pngs : List (Except Err Png)) (loop : Int)
    (ps : Nat) (sr : Bool) :
    pngs_to_gif pngs loop none none ps sr = (Except.error Err.valueError, []) ∧
    Err.valueError.invalidArgumentKind = true :=
  ⟨by simp [pngs_to_gif], rfl⟩

theorem pipeline_error_head_of_nonpos_size (bm : Board × Option Move)
    (rest : List (Except Err (Board × Option Move))) (hlm : Bool) (o : Color)
    (size : Int) (c : Bool) (st : Option String) (hsize : size ≤ 0) :
    pngs_stream (svgs_stream (Except.ok bm :: rest) hlm o size c st) =
      Except.error Err.assertionError ::
        pngs_stream (svgs_stream rest hlm o size c st) := by
  simp [pngs_stream, svgs_stream, board_to_svg, Except.bind, Except.map,
    show ¬(0 : Int) < size by omega]

/-- Counterexample to C5 as stated: with size 0 on a one-move game the
pipeline does fail with the renderer's AssertionError, but the event trace
begins with the creation of the temporary output artifact — I/O happens
before the failure, because the frame generators are lazy and the encoder
opens its sink before pulling the first frame. -/
theorem size_check_counterexample :
    (game_to_gif (some sampleGame) (some "game.gif") true true Color.white 0 true
      none 0 none (some 1) 16 true true).1 = Except.error Err.assertionError ∧
    (game_to_gif (some sampleGame) (some "game.gif") true true Color.white 0 true
      none 0 none (some 1) 16 true true).2.head? = some Event.tempFileCreated := by
  constructor <;> decide

/-- C5 (amended): for a non-positive size and at least one frame, the
pipeline fails with the AssertionError (an InvalidArgument-kind error) of
the renderer's eagerly checked precondition, but only at the first frame
consumption: the temporary output artifact is created and the writer sink
opened before the failure occurs. -/
theorem size_check_lazy_pipeline (g : ParsedGame) (gif_path : Option String)
    (aip hlm : Bool) (o : Color) (size : Int) (c : Bool) (st : Option String)
    (loop : Int) (d fp : Option Rat) (ps : Nat) (sr dw : Bool)
    (hsize : size ≤ 0) (htime : ¬(d = none ∧ fp = none))
    (hne : game_to_boards_and_last_moves (some g) aip ≠ []) :
    game_to_gif (some g) gif_path aip hlm o size c st loop d fp ps sr dw =
      (Except.error Err.assertionError,
        [Event.tempFileCreated, Event.sinkOpened, Event.sinkClosed]) ∧
    Err.assertionError.invalidArgumentKind = true := by
  have hbl : boards_list g aip ≠ [] := by
    intro h
    apply hne
    rw [game_stream_eq_map_ok, h]
    rfl
  obtain ⟨bm, rest, hcons⟩ : ∃ bm rest, boards_list g aip = bm :: rest := by
    cases h : boards_list g aip with
    | nil => exact absurd h hbl
    | cons a t => exact ⟨a, t, rfl⟩
  have hstream : game_to_boards_and_last_moves (some g) aip =
      Except.ok bm :: rest.map Except.ok := by
    rw [game_stream_eq_map_ok, hcons]
    rfl
  constructor
  · simp only [game_to_gif]
    rw [hstream, pipeline_error_head_of_nonpos_size _ _ _ _ _ _ _ hsize,
      pngs_to_gif_error_head _ _ _ _ _ _ _ htime]
  · rfl

/-- Witness for the amended C5 at size 0 on "1. e4 e5". -/
theorem size_check_lazy_pipeline_witness :
    ((0 : Int) ≤ 0 ∧ ¬((none : Option Rat) = none ∧ (some 1 : Option Rat) = none) ∧
      game_to_boards_and_last_moves (some sampleGame) true ≠ []) ∧
    (game_to_gif (some sampleGame) (some "w5.gif") true true Color.white 0 true
        none 0 none (some 1) 16 true true =
      (Except.error Err.assertionError,
        [Event.tempFileCreated, Event.sinkOpened, Event.sinkClosed]) ∧
      Err.assertionError.invalidArgumentKind = true) :=
  ⟨⟨by decide, by decide, by decide⟩,
    size_check_lazy_pipeline sampleGame (some "w5.gif") true true Color.white 0 true
      none 0 none (some 1) 16 true true (by decide) (by decide) (by decide)⟩

/-- C6: a game with zero mainline moves and add_initial_position false
yields the empty board sequence, which propagates to a zero-frame encode
attempt that the animation encoder rejects with a RuntimeError; the trace
shows no output write, so no gif artifact is produced. -/
theorem zero_frames_rejected (g : ParsedGame) (p : String) (hlm : Bool)
    (o : Color) (size : Int) (c : Bool) (st : Option String) (loop : Int)
    (d fp : Option Rat) (ps : Nat) (sr dw : Bool)
    (hmoves : g.moves = []) (htime : ¬(d = none ∧ fp = none)) :
    game_to_boards_and_last_moves (some g) false = [] ∧
    game_to_gif (some g) (some p) false hlm o size c st loop d fp ps sr dw =
      (Except.error Err.runtimeError,
        [Event.tempFileCreated, Event.sinkOpened, Event.sinkClosed]) := by
  have hstream : game_to_boards_and_last_moves (some g) false = [] := by
    simp [game_to_boards_and_last_moves, ParsedGame.mainline_moves, hmoves]
  refine ⟨hstream, ?_⟩
  have h0 : pngs_to_gif ([] : List (Except Err Png)) loop d fp ps sr =
      (Except.error Err.runtimeError,
        [Event.tempFileCreated, Event.sinkOpened, Event.sinkClosed]) := by
    simp [pngs_to_gif, htime, append_frames, writer_close]
  simp only [game_to_gif]
  rw [hstream]
  rw [show pngs_stream (svgs_stream [] hlm o size c st) = [] from rfl, h0]

/-- Witness for C6 on the empty game. -/
theorem zero_frames_rejected_witness :
    (emptyGame.moves = [] ∧
      ¬((none : Option Rat) = none ∧ (some 1 : Option Rat) = none)) ∧
    (game_to_boards_and_last_moves (some emptyGame) false = [] ∧
      game_to_gif (some emptyGame) (some "w6.gif") false true Color.white 400 true
          none 0 none (some 1) 16 true true =
        (Except.error Err.runtimeError,
          [Event.tempFileCreated, Event.sinkOpened, Event.sinkClosed])) :=
  ⟨⟨by decide, by decide⟩,
    zero_frames_rejected emptyGame "w6.gif" true Color.white 400 true none 0 none
      (some 1) 16 true true (by decide) (by decide)⟩

/-- Counterexample to C7: on garbage PGN text the forgiving parser salvages
a moveless game and collects the error; the pipeline runs to completion,
the process would exit zero, and the output gif (one initial-position
frame) is written to the destination path. -/
theorem garbage_pgn_creates_gif :
    (pgn_to_gif (PgnText.malformed [] 0) (some "out.gif") true true Color.white
      400 true none 0 none (some 1) 16 true true).1 = Except.ok none ∧
    Event.outputWritten "out.gif" [initialPng] ∈
      (pgn_to_gif (PgnText.malformed [] 0) (some "out.gif") true true Color.white
        400 true none 0 none (some 1) 16 true true).2 := by
  constructor <;> decide

/-- C7 (amended): malformed PGN does not fail at the parsing stage — the
pipeline processes a salvaged game exactly like a cleanly parsed game with
the same mainline (the collected parse errors are never inspected); only
input containing no game at all makes the parser return nothing, and then
the failure is an AttributeError raised lazily inside the encoder loop, not
a ParseError, and it happens after the temporary artifact is created. -/
theorem forgiving_parse (ms : List Move) (k : Nat) (gif_path : Option String)
    (aip hlm : Bool) (o : Color) (size : Int) (c : Bool) (st : Option String)
    (loop : Int) (d fp : Option Rat) (ps : Nat) (sr dw : Bool)
    (htime : ¬(d = none ∧ fp = none)) :
    pgn_to_gif (PgnText.malformed ms k) gif_path aip hlm o size c st loop d fp
        ps sr dw =
      pgn_to_gif (PgnText.wellFormed ms) gif_path aip hlm o size c st loop d fp
        ps sr dw ∧
    (pgn_to_gif PgnText.empty gif_path false hlm o size c st loop d fp ps sr dw).1 =
      Except.error Err.attributeError := by
  constructor
  · rfl
  · simp only [pgn_to_gif, pgn_to_game, read_game, game_to_gif]
    rw [show pngs_stream (svgs_stream
        (game_to_boards_and_last_moves none false) hlm o size c st) =
        [Except.error Err.attributeError] from rfl,
      pngs_to_gif_error_head _ _ _ _ _ _ _ htime]

/-- Witness for the amended C7. -/
theorem forgiving_parse_witness :
    ¬((none : Option Rat) = none ∧ (some 1 : Option Rat) = none) ∧
    (pgn_to_gif (PgnText.malformed [e2e4] 2) (some "w7.gif") true true Color.white
        400 true none 0 none (some 1) 16 true true =
      pgn_to_gif (PgnText.wellFormed [e2e4]) (some "w7.gif") true true Color.white
        400 true none 0 none (some 1) 16 true true ∧
      (pgn_to_gif PgnText.empty (some "w7.gif") false true Color.white 400 true
        none 0 none (some 1) 16 true true).1 = Except.error Err.attributeError) :=
  ⟨by decide,
    forgiving_parse [e2e4] 2 (some "w7.gif") true true Color.white 400 true none 0
      none (some 1) 16 true true (by decide)⟩

/-- Counterexample to C8: when the destination open fails, the temporary
file is left open — the release is not guaranteed on the failure path,
because `save_gif_temp_file` has no try/finally around the write. -/
theorem save_leak_counterexample :
    (save_gif_temp_file sampleTempFile "out.gif" false).1 =
        Except.error Err.ioError ∧
    (save_gif_temp_file sampleTempFile "out.gif" false).2.1.closed = false := by
  constructor <;> decide

/-- C8 (amended): on the success path the writer creates parent
directories, writes the temp file's full contents from the beginning
(thanks to the seek to 0) and then closes it; on a failed destination open
the IOError propagates and the temporary file keeps its previous
open/closed state — it is not released. -/
theorem save_gif_contract (tf : TempFile) (p : String) :
    save_gif_temp_file tf p true =
      (Except.ok (), ⟨tf.contents, tf.contents.length, true⟩,
        [Event.parentDirsCreated, Event.outputWritten p tf.contents,
          Event.tempFileClosed]) ∧
    save_gif_temp_file tf p false =
      (Except.error Err.ioError, ⟨tf.contents, 0, tf.closed⟩,
        [Event.parentDirsCreated]) :=
  save_gif_eq tf p

theorem true_false_tokens_disjoint (x : String) :
    (x = "1" ∨ x = "t" ∨ x = "true") → ¬(x = "0" ∨ x = "f" ∨ x = "false") := by
  rintro (rfl | rfl | rfl) <;> decide

/-- C9: the cli.py entry point parses boolean flags by a case-insensitive
allow-list — true exactly on lowercased {1, t, true}, false exactly on
lowercased {0, f, false}, a ValueError otherwise — while the main.py entry
point coerces any non-empty string to true and only the empty string to
false. -/
theorem bool_flag_parsing (s : String) :
    (parse_bool s = Except.ok true ↔
      (s.toLower = "1" ∨ s.toLower = "t" ∨ s.toLower = "true")) ∧
    (parse_bool s = Except.ok false ↔
      (s.toLower = "0" ∨ s.toLower = "f" ∨ s.toLower = "false")) ∧
    (parse_bool s = Except.error Err.valueError ↔
      (¬(s.toLower = "1" ∨ s.toLower = "t" ∨ s.toLower = "true") ∧
        ¬(s.toLower = "0" ∨ s.toLower = "f" ∨ s.toLower = "false"))) ∧
    (bool_of_str s = true ↔ s ≠ "") ∧
    (bool_of_str s = false ↔ s = "") := by
  have hb : (bool_of_str s = true ↔ s ≠ "") ∧ (bool_of_str s = false ↔ s = "") := by
    unfold bool_of_str
    split_ifs with h <;> simp [h]
  by_cases h1 : s.toLower = "1" ∨ s.toLower = "t" ∨ s.toLower = "true"
  · have hd := true_false_tokens_disjoint _ h1
    have hp : parse_bool s = Except.ok true := by
      have hmem : s.toLower ∈ (["1", "t", "true"] : List String) := by simpa using h1
      simp [parse_bool, hmem]
    exact ⟨⟨fun _ => h1, fun _ => hp⟩, iff_of_false (by simp [hp]) hd,
      iff_of_false (by simp [hp]) (fun hc => hc.1 h1), hb.1, hb.2⟩
  · by_cases h2 : s.toLower = "0" ∨ s.toLower = "f" ∨ s.toLower = "false"
    · have hp : parse_bool s = Except.ok false := by
        have hmem2 : s.toLower ∈ (["0", "f", "false"] : List String) := by simpa using h2
        have hnmem : s.toLower ∉ (["1", "t", "true"] : List String) := by simpa using h1
        simp [parse_bool, hmem2, hnmem]
      exact ⟨iff_of_false (by simp [hp]) h1, ⟨fun _ => h2, fun _ => hp⟩,
        iff_of_false (by simp [hp]) (fun hc => hc.2 h2), hb.1, hb.2⟩
    · have hp : parse_bool s = Except.error Err.valueError := by
        have hn1 : s.toLower ∉ (["1", "t", "true"] : List String) := by simpa using h1
        have hn2 : s.toLower ∉ (["0", "f", "false"] : List String) := by simpa using h2
        simp [parse_bool, hn1, hn2]
      exact ⟨iff_of_false (by simp [hp]) h1, iff_of_false (by simp [hp]) h2,
        iff_of_true hp ⟨h1, h2⟩, hb.1, hb.2⟩

/-- C10: on a successful run, `game_to_gif` with no gif_path returns the
still-open temp file and writes no output; with a gif_path and a writable
destination it persists the artifact to that path and returns none; and
`pgn_to_gif` passes the parsed game straight through to `game_to_gif`. -/
theorem return_or_persist (g : ParsedGame) (p : String) (aip hlm : Bool)
    (o : Color) (size : Int) (c : Bool) (st : Option String) (loop : Int)
    (d fp : Option Rat) (ps : Nat) (sr dw : Bool)
    (hsize : 0 < size) (htime : ¬(d = none ∧ fp = none))
    (hne : game_to_boards_and_last_moves (some g) aip ≠ []) :
    (∃ tf, (game_to_gif (some g) none aip hlm o size c st loop d fp ps sr dw).1 =
        Except.ok (some tf) ∧ tf.closed = false) ∧
    (∀ q dat, Event.outputWritten q dat ∉
        (game_to_gif (some g) none aip hlm o size c st loop d fp ps sr dw).2) ∧
    (game_to_gif (some g) (some p) aip hlm o size c st loop d fp ps sr true).1 =
        Except.ok none ∧
    (∃ dat, Event.outputWritten p dat ∈
        (game_to_gif (some g) (some p) aip hlm o size c st loop d fp ps sr true).2) ∧
    pgn_to_gif (PgnText.wellFormed g.moves) none aip hlm o size c st loop d fp
        ps sr dw =
      game_to_gif (some ⟨g.moves, 0⟩) none aip hlm o size c st loop d fp ps sr dw := by
  have hbl : boards_list g aip ≠ [] := by
    intro h
    apply hne
    rw [game_stream_eq_map_ok, h]
    rfl
  set L : List Png := (boards_list g aip).map
    (fun bm => svg_to_png ⟨bm.1, o, if hlm then bm.2 else none, size, c, st⟩) with hL
  have hLne : L ≠ [] := by
    rw [hL]
    simpa using hbl
  have hclose : writer_close L = Except.ok ⟨L, L.length, false⟩ := by
    simp [writer_close, List.isEmpty_iff, hLne]
  have hrun : pngs_to_gif (pngs_stream (svgs_stream
      (game_to_boards_and_last_moves (some g) aip) hlm o size c st)) loop d fp ps sr =
      (Except.ok ⟨L, L.length, false⟩,
        [Event.tempFileCreated, Event.sinkOpened] ++
          List.replicate L.length Event.frameAppended ++ [Event.sinkClosed]) := by
    rw [game_stream_eq_map_ok, pngs_stream_map_ok _ _ _ _ _ _ hsize,
      pngs_to_gif_map_ok _ _ _ _ _ _ htime, hclose]
  have hnone : game_to_gif (some g) none aip hlm o size c st loop d fp ps sr dw =
      (Except.ok (some ⟨L, L.length, false⟩),
        [Event.tempFileCreated, Event.sinkOpened] ++
          List.replicate L.length Event.frameAppended ++ [Event.sinkClosed]) := by
    simp only [game_to_gif]
    rw [hrun]
  have hsome : game_to_gif (some g) (some p) aip hlm o size c st loop d fp ps sr true =
      (Except.ok none,
        ([Event.tempFileCreated, Event.sinkOpened] ++
          List.replicate L.length Event.frameAppended ++ [Event.sinkClosed]) ++
          [Event.parentDirsCreated, Event.outputWritten p L,
            Event.tempFileClosed]) := by
    simp only [game_to_gif]
    rw [hrun]
    rfl
  refine ⟨⟨⟨L, L.length, false⟩, by rw [hnone], rfl⟩, ?_, by rw [hsome], ?_, rfl⟩
  · intro q dat
    rw [hnone]
    simp [List.mem_append, List.mem_replicate]
  · refine ⟨L, ?_⟩
    rw [hsome]
    simp

/-- Witness for C10 on "1. e4 e5" with default-like options. -/
theorem return_or_persist_witness :
    ((0 : Int) < 400 ∧ ¬((none : Option Rat) = none ∧ (some 1 : Option Rat) = none) ∧
      game_to_boards_and_last_moves (some sampleGame) true ≠ []) ∧
    ((∃ tf, (game_to_gif (some sampleGame) none true true Color.white 400 true none
        0 none (some 1) 16 true true).1 = Except.ok (some tf) ∧ tf.closed = false) ∧
      (∀ q dat, Event.outputWritten q dat ∉ (game_to_gif (some sampleGame) none true
        true Color.white 400 true none 0 none (some 1) 16 true true).2) ∧
      (game_to_gif (some sampleGame) (some "w10.gif") true true Color.white 400 true
        none 0 none (some 1) 16 true true).1 = Except.ok none ∧
      (∃ dat, Event.outputWritten "w10.gif" dat ∈ (game_to_gif (some sampleGame)
        (some "w10.gif") true true Color.white 400 true none 0 none (some 1) 16 true
        true).2) ∧
      pgn_to_gif (PgnText.wellFormed sampleGame.moves) none true true Color.white 400
          true none 0 none (some 1) 16 true true =
        game_to_gif (some ⟨sampleGame.moves, 0⟩) none true true Color.white 400 true
          none 0 none (some 1) 16 true true) :=
  ⟨⟨by decide, by decide, by decide⟩,
    return_or_persist sampleGame "w10.gif" true true Color.white 400 true none 0 none
      (some 1) 16 true true (by decide) (by decide) (by decide)⟩

end PgnToGif
